import Mathlib

set_option autoImplicit false

/-!
# CaspyORM statement compiler and type-marshalling engine, shallow embedding

A shallow embedding of the pure core of the CaspyORM library:

* `src/caspyorm/_internal/query_builder.py` — the statement compiler
  (namespace `QueryBuilder` below);
* `src/caspyorm/_internal/schema_sync.py` — the pure parts of the schema
  differ and its own create-table builder (namespace `SchemaSync`);
* `src/caspyorm/fields.py` — the field-type registry and its value
  conversions (`FieldType`, `to_python`, `to_cql`, `get_cql_definition`).

Python dictionaries are embedded as insertion-ordered association lists,
Python exceptions as `Except PyExc`, and dynamically typed Python values as
the inductive `PyVal`.  Error messages are abridged: the Python messages
interpolate sets whose iteration order is unspecified, so no theorem below
depends on a message beyond the exception class and, for the unsupported
operator error, the offending operator token.
-/

/-- The class of a raised Python exception, with an abridged message. -/
inductive PyExc where
  | valueError (msg : String)
  | typeError (msg : String)
  | attributeError (msg : String)
  | indexError (msg : String)
  | runtimeError (msg : String)
  deriving DecidableEq, Repr

/-- A dynamically typed Python value, restricted to the shapes the embedded
code manipulates.  Python floats are modelled as rationals (every finite
float is one); `vuuid` carries the 128-bit integer a `uuid.UUID` wraps.
`vset` keeps the iteration order the Python set would present. -/
inductive PyVal where
  | vnone
  | vstr (s : String)
  | vint (n : Int)
  | vbool (b : Bool)
  | vfloat (q : Rat)
  | vuuid (n : Nat)
  | vlist (xs : List PyVal)
  | vtuple (xs : List PyVal)
  | vset (xs : List PyVal)
  | vmap (kvs : List (PyVal × PyVal))

/-- Python truthiness (`bool(v)`), on the embedded value shapes. -/
def truthy : PyVal → Bool
  | .vnone => false
  | .vstr s => s != ""
  | .vint n => n != 0
  | .vbool b => b
  | .vfloat q => q != 0
  | .vuuid _ => true
  | .vlist xs => !xs.isEmpty
  | .vtuple xs => !xs.isEmpty
  | .vset xs => !xs.isEmpty
  | .vmap kvs => !kvs.isEmpty

/-- Is the needle list a prefix of the haystack list? -/
def charsStart (needle hay : List Char) : Bool :=
  match needle, hay with
  | [], _ => true
  | a :: as, b :: bs => a == b && charsStart as bs
  | _, [] => false

/-- Does the needle occur as a contiguous run inside the haystack? -/
def charsInside (needle : List Char) : List Char → Bool
  | [] => charsStart needle []
  | b :: bs => charsStart needle (b :: bs) || charsInside needle bs

/-- Substring test on strings, used only to state claims about the emitted
CQL text. -/
def strContains (hay needle : String) : Bool :=
  charsInside needle.toList hay.toList

/-- Python `str.join(sep, parts)`: empty for no parts, otherwise the parts
joined by the separator. -/
def pyJoin (sep : String) : List String → String
  | [] => ""
  | [a] => a
  | a :: b :: rest => a ++ sep ++ pyJoin sep (b :: rest)

/-- If the first list is a prefix of the second, the remainder after it. -/
def chopSep : List Char → List Char → Option (List Char)
  | [], l => some l
  | _ :: _, [] => none
  | a :: as, b :: bs => if a == b then chopSep as bs else none

/-- Scan for the first occurrence of the (non-empty) separator: the
characters before it, and the remainder after it (`none` when the
separator does not occur). -/
def splitHeadChars (sep : List Char) : List Char → List Char × Option (List Char)
  | [] => ([], none)
  | c :: cs =>
    match chopSep sep (c :: cs) with
    | some rest => ([], some rest)
    | none =>
      let r := splitHeadChars sep cs
      (c :: r.1, r.2)

/-- The first segment of Python `s.split(sep)` and the rest of the string
after the first separator occurrence.  `s.split(sep)[0]` is the first
component; `len(s.split(sep)) > 1` is the presence of the second; and
`s.split(sep)[1]` is the first segment of the remainder.  The source only
ever consumes these three, which is why the embedding splits
incrementally. -/
def pySplitHead (sep s : String) : String × Option String :=
  let r := splitHeadChars sep.toList s.toList
  (String.mk r.1, r.2.map String.mk)

/-- Python `str.lower`, on the ASCII type names at hand. -/
def pyLower (s : String) : String :=
  String.mk (s.toList.map Char.toLower)

/-- The compiled, immutable schema descriptor of one model
(`__caspy_schema__` as consumed by the statement compiler): the table name,
the insertion-ordered field/type mapping, and the three key lists. -/
structure Schema where
  table_name : String
  fields : List (String × String)
  primary_keys : List String
  partition_keys : List String
  clustering_keys : List String
  deriving DecidableEq, Repr

namespace QueryBuilder

/-- `_get_cql_type` from `query_builder.py`: composite types (containing
`<`) pass through, known scalars map through the table, anything else
falls back to `text`. -/
def get_cql_type (field_type : String) : String :=
  if field_type.toList.contains '<' then field_type
  else
    let type_mapping : List (String × String) :=
      [("text", "text"), ("uuid", "uuid"), ("int", "int"),
       ("bigint", "bigint"), ("float", "float"), ("double", "double"),
       ("boolean", "boolean"), ("timestamp", "timestamp"), ("date", "date"),
       ("time", "time"), ("blob", "blob"), ("decimal", "decimal"),
       ("varint", "varint"), ("inet", "inet"), ("varchar", "varchar")]
    (type_mapping.lookup field_type).getD "text"

/-- The keys of the type mapping inside `_get_cql_type`. -/
def known_cql_types : List String :=
  ["text", "uuid", "int", "bigint", "float", "double", "boolean",
   "timestamp", "date", "time", "blob", "decimal", "varint", "inet",
   "varchar"]

/-- `build_insert_cql`. -/
def build_insert_cql (schema : Schema) : String :=
  let field_names := schema.fields.map Prod.fst
  let columns := pyJoin ", " field_names
  let placeholders := pyJoin ", " (List.replicate field_names.length "?")
  "INSERT INTO " ++ schema.table_name ++ " (" ++ columns ++ ") VALUES (" ++ placeholders ++ ")"

/-- The operator table shared by `build_select_cql` and `build_count_cql`. -/
def operator_map : List (String × String) :=
  [("exact", "="), ("gt", ">"), ("gte", ">="), ("lt", "<"), ("lte", "<="),
   ("in", "IN")]

/-- The element list of a Python list, tuple or set; `none` for any other
value.  This is the `isinstance(value, (list, tuple, set))` test of the
`IN` branch together with the subsequent iteration. -/
def collElems : PyVal → Option (List PyVal)
  | .vlist xs => some xs
  | .vtuple xs => some xs
  | .vset xs => some xs
  | _ => none

/-- One iteration of the filter loop shared by `build_select_cql` and
`build_count_cql`: split the key on `__`, take the first segment as the
field and the second as the operator (defaulting to `exact`), validate the
operator, and emit the clause together with the parameters it appends. -/
def filter_entry_clause (key : String) (value : PyVal) :
    Except PyExc (String × List PyVal) :=
  let parts := pySplitHead "__" key
  let field_name := parts.1
  let op :=
    match parts.2 with
    | some rest => (pySplitHead "__" rest).1
    | none => "exact"
  match operator_map.lookup op with
  | none =>
      .error (.valueError ("Operador de filtro nao suportado: " ++ op))
  | some cql_operator =>
      if cql_operator = "IN" then
        match collElems value with
        | none =>
            .error (.typeError "O valor para o filtro __in deve ser uma lista, tupla ou set")
        | some xs =>
            let placeholders := pyJoin ", " (List.replicate xs.length "?")
            .ok (field_name ++ " IN (" ++ placeholders ++ ")", xs)
      else
        .ok (field_name ++ " " ++ cql_operator ++ " ?", [value])

/-- The filter loop: accumulate WHERE clauses and positional parameters in
mapping order, aborting at the first raised exception. -/
def build_where : List (String × PyVal) → Except PyExc (List String × List PyVal)
  | [] => .ok ([], [])
  | (key, value) :: rest => do
    let c ← filter_entry_clause key value
    let r ← build_where rest
    pure (c.1 :: r.1, c.2 ++ r.2)

/-- One ORDER BY token: a leading `-` selects `DESC`, and `lstrip` removes
every leading `-` from the field name.  The clustering-key check in the
source only logs a warning, so it does not appear here. -/
def order_clause (field : String) : String :=
  let direction := if field.startsWith "-" then "DESC" else "ASC"
  let field_name := String.mk (field.toList.dropWhile (fun c => c == '-'))
  field_name ++ " " ++ direction

/-- `build_select_cql`.  `columns`, `filters` and `ordering` collapse the
Python defaults `None` and empty to the empty list, which the source treats
identically (plain truthiness tests); `limit = some 0` is falsy in Python
and therefore emits no LIMIT clause. -/
def build_select_cql (schema : Schema) (columns : List String)
    (filters : List (String × PyVal)) (limit : Option Int)
    (ordering : List String) : Except PyExc (String × List PyVal) := do
  let select_clause := if columns.isEmpty then "*" else pyJoin ", " columns
  let base := "SELECT " ++ select_clause ++ " FROM " ++ schema.table_name
  let wp ← if filters.isEmpty then pure ([], []) else build_where filters
  let cql1 := if filters.isEmpty then base else base ++ " WHERE " ++ pyJoin " AND " wp.1
  let cql2 :=
    if ordering.isEmpty then cql1
    else cql1 ++ " ORDER BY " ++ pyJoin ", " (ordering.map order_clause)
  let step3 :=
    match limit with
    | some n => if n ≠ 0 then (cql2 ++ " LIMIT ?", wp.2 ++ [PyVal.vint n]) else (cql2, wp.2)
    | none => (cql2, wp.2)
  let cql4 := if filters.isEmpty then step3.1 else step3.1 ++ " ALLOW FILTERING"
  pure (cql4, step3.2)

/-- `build_count_cql`: the same filter handling as `build_select_cql`, no
ordering and no limit. -/
def build_count_cql (schema : Schema) (filters : List (String × PyVal)) :
    Except PyExc (String × List PyVal) := do
  let base := "SELECT COUNT(*) FROM " ++ schema.table_name
  let wp ← if filters.isEmpty then pure ([], []) else build_where filters
  let cql :=
    if filters.isEmpty then base
    else base ++ " WHERE " ++ pyJoin " AND " wp.1 ++ " ALLOW FILTERING"
  pure (cql, wp.2)

/-- `build_create_table_cql` from `query_builder.py`.  Accessing
`primary_keys[0]` on an empty list raises `IndexError`; with one primary
key the clause is `PRIMARY KEY (k)`, otherwise the first key is treated as
the partition key and the rest as clustering keys, with no inner
parentheses. -/
def build_create_table_cql (schema : Schema) : Except PyExc String :=
  let column_definitions :=
    schema.fields.map (fun fi => fi.1 ++ " " ++ get_cql_type fi.2)
  match schema.primary_keys with
  | [] => .error (.indexError "list index out of range")
  | pk :: rest =>
    let pk_clause :=
      if schema.primary_keys.length = 1 then
        "PRIMARY KEY (" ++ pk ++ ")"
      else if rest.isEmpty then
        "PRIMARY KEY (" ++ pk ++ ")"
      else
        "PRIMARY KEY (" ++ pk ++ ", " ++ pyJoin ", " rest ++ ")"
    .ok ("CREATE TABLE IF NOT EXISTS " ++ schema.table_name ++ " (" ++
         pyJoin ", " column_definitions ++ ", " ++ pk_clause ++ ")")

/-- `build_add_column_cql`. -/
def build_add_column_cql (table_name column_name column_type : String) : String :=
  "ALTER TABLE " ++ table_name ++ " ADD " ++ column_name ++ " " ++
    get_cql_type column_type ++ ";"

/-- `build_drop_column_cql`. -/
def build_drop_column_cql (table_name column_name : String) : String :=
  "ALTER TABLE " ++ table_name ++ " DROP " ++ column_name ++ ";"

/-- `build_delete_cql`: refuse an empty filter, refuse a filter whose key
set does not cover every partition key, otherwise emit one `k = ?` clause
per filter entry with the filter values, in mapping order, as parameters. -/
def build_delete_cql (schema : Schema) (filters : List (String × PyVal)) :
    Except PyExc (String × List PyVal) :=
  if filters.isEmpty then
    .error (.valueError "A delecao em massa sem um filtro WHERE nao e permitida por seguranca.")
  else if !(schema.partition_keys.all (fun pk => (filters.map Prod.fst).contains pk)) then
    .error (.valueError "Para deletar, voce deve especificar todos os campos da chave de particao.")
  else
    let where_clauses :=
      pyJoin " AND " (filters.map (fun kv => kv.1 ++ " = ?"))
    .ok ("DELETE FROM " ++ schema.table_name ++ " WHERE " ++ where_clauses,
         filters.map Prod.snd)

/-- `build_update_cql`: refuse an empty SET mapping or an empty WHERE
mapping; the parameters are the SET values followed by the WHERE values,
each in mapping order. -/
def build_update_cql (schema : Schema) (update_data pk_filters : List (String × PyVal)) :
    Except PyExc (String × List PyVal) :=
  if update_data.isEmpty then
    .error (.valueError "Nenhum campo fornecido para atualizacao")
  else if pk_filters.isEmpty then
    .error (.valueError "Filtros de chave primaria sao obrigatorios para UPDATE")
  else
    let set_clause :=
      pyJoin ", " (update_data.map (fun kv => kv.1 ++ " = ?"))
    let where_clause :=
      pyJoin " AND " (pk_filters.map (fun kv => kv.1 ++ " = ?"))
    .ok ("UPDATE " ++ schema.table_name ++ " SET " ++ set_clause ++ " WHERE " ++ where_clause,
         update_data.map Prod.snd ++ pk_filters.map Prod.snd)

/-- `build_collection_update_cql`.  `add` and `remove` are the passed
collections, `none` for the Python default `None`; `list(add)` is the
element list in iteration order.  The source raises only when both are
`None`; a present-but-empty collection is falsy, so it contributes no SET
clause. -/
def build_collection_update_cql (schema : Schema) (field_name : String)
    (add remove : Option (List PyVal)) (pk_filters : List (String × PyVal)) :
    Except PyExc (String × List PyVal) :=
  if add.isNone && remove.isNone then
    .error (.valueError "Deve ser fornecido add ou remove para update_collection.")
  else
    let addPart : List String × List PyVal :=
      match add with
      | some l => if l.isEmpty then ([], []) else ([field_name ++ " = " ++ field_name ++ " + ?"], [PyVal.vlist l])
      | none => ([], [])
    let removePart : List String × List PyVal :=
      match remove with
      | some l => if l.isEmpty then ([], []) else ([field_name ++ " = " ++ field_name ++ " - ?"], [PyVal.vlist l])
      | none => ([], [])
    let set_clause := pyJoin ", " (addPart.1 ++ removePart.1)
    let where_clause :=
      pyJoin " AND " (pk_filters.map (fun kv => kv.1 ++ " = ?"))
    .ok ("UPDATE " ++ schema.table_name ++ " SET " ++ set_clause ++ " WHERE " ++ where_clause,
         addPart.2 ++ removePart.2 ++ pk_filters.map Prod.snd)

end QueryBuilder

/-!
## Field type registry (`src/caspyorm/fields.py`)

The field classes become the closed inductive `FieldType`; `to_python` and
`to_cql` are their value conversions.  `BaseField.to_python` applies the
Python type constructor (`str`, `int`, `float`, `bool`, `uuid.UUID`) to the
wire value and re-raises `TypeError` / `ValueError` as a descriptive
`TypeError`; any other exception escapes unwrapped.  The builtin coercions
applied to the embedded value shapes are spelled out below.
-/

/-- The closed set of field types declared in `fields.py`.  `Timestamp`
declares `python_type = str` in the source, so its local type is a
string. -/
inductive FieldType where
  | text
  | uuid
  | integer
  | float
  | boolean
  | timestamp
  | list (inner : FieldType)
  | set (inner : FieldType)
  | map (key value : FieldType)
  deriving DecidableEq, Repr

/-- `get_cql_definition`: the wire type name, composed recursively for
collections (`list<inner>`, `set<inner>`, `map<key,value>`). -/
def get_cql_definition : FieldType → String
  | .text => "text"
  | .uuid => "uuid"
  | .integer => "int"
  | .float => "float"
  | .boolean => "boolean"
  | .timestamp => "timestamp"
  | .list inner => "list<" ++ get_cql_definition inner ++ ">"
  | .set inner => "set<" ++ get_cql_definition inner ++ ">"
  | .map k v => "map<" ++ get_cql_definition k ++ "," ++ get_cql_definition v ++ ">"

mutual

/-- Structural equality of embedded Python values, the equality `set` and
`dict` deduplicate by for the value shapes at hand. -/
def pyValBEq : PyVal → PyVal → Bool
  | .vnone, .vnone => true
  | .vstr a, .vstr b => a == b
  | .vint a, .vint b => a == b
  | .vbool a, .vbool b => a == b
  | .vfloat a, .vfloat b => a == b
  | .vuuid a, .vuuid b => a == b
  | .vlist a, .vlist b => pyValListBEq a b
  | .vtuple a, .vtuple b => pyValListBEq a b
  | .vset a, .vset b => pyValListBEq a b
  | .vmap a, .vmap b => pyValPairsBEq a b
  | _, _ => false

/-- Elementwise equality of value lists. -/
def pyValListBEq : List PyVal → List PyVal → Bool
  | [], [] => true
  | a :: as, b :: bs => pyValBEq a b && pyValListBEq as bs
  | _, _ => false

/-- Elementwise equality of key-value pair lists. -/
def pyValPairsBEq : List (PyVal × PyVal) → List (PyVal × PyVal) → Bool
  | [], [] => true
  | a :: as, b :: bs => pyValBEq a.1 b.1 && pyValBEq a.2 b.2 && pyValPairsBEq as bs
  | _, _ => false

end

/-- Strip leading and trailing `{` / `}` characters — `str.strip` with the
character set the `uuid.UUID` constructor uses. -/
def stripBraces (s : String) : String :=
  let isBrace := fun c => c == '\x7b' || c == '\x7d'
  String.mk (((s.toList.dropWhile isBrace).reverse.dropWhile isBrace).reverse)

/-- The value of one hexadecimal digit, by code point: digits occupy 48-57,
the lowercase letters a-f occupy 97-102 (value = code - 87) and the
uppercase A-F occupy 65-70 (value = code - 55). -/
def hexDigitVal (c : Char) : Option Nat :=
  let n := c.toNat
  if 48 ≤ n && n ≤ 57 then some (n - 48)
  else if 97 ≤ n && n ≤ 102 then some (n - 87)
  else if 65 ≤ n && n ≤ 70 then some (n - 55)
  else none

/-- `int(s, 16)` on a digit list, `none` when a character is not a hex
digit. -/
def hexToNat : List Char → Nat → Option Nat
  | [], acc => some acc
  | c :: cs, acc =>
    match hexDigitVal c with
    | some d => hexToNat cs (acc * 16 + d)
    | none => none

/-- The `uuid.UUID(hex=s)` constructor of the standard library: drop the
`urn:` and `uuid:` markers, strip braces, drop dashes, then require exactly
32 hexadecimal digits; `none` stands for the `ValueError` it raises
otherwise. -/
def pyUuidParse (s : String) : Option Nat :=
  let h1 := (s.replace "urn:" "").replace "uuid:" ""
  let h2 := (stripBraces h1).replace "-" ""
  if h2.length == 32 then hexToNat h2.toList 0 else none

/-- `int(v)`: identity on ints, 0/1 on bools, truncation toward zero on
floats, `__int__` on uuid values, decimal parsing (approximated by
`String.toInt?` after trimming) on strings, `TypeError` elsewhere. -/
def pyIntCoerce : PyVal → Except PyExc Int
  | .vint n => .ok n
  | .vbool b => .ok (if b then 1 else 0)
  | .vfloat q => .ok (q.num / (q.den : Int))
  | .vuuid n => .ok (n : Int)
  | .vstr s =>
    match s.trim.toInt? with
    | some n => .ok n
    | none => .error (.valueError "invalid literal for int with base 10")
  | _ => .error (.typeError "int argument must be a string or a number")

/-- Parse an optionally signed decimal numeral with an optional fractional
part into a rational; exponent forms, `inf` and `nan` are not modelled (no
claim evaluates `float` on a string). -/
def decToRat (s : String) : Option Rat :=
  let t := s.trim
  let core := if t.startsWith "-" || t.startsWith "+" then t.drop 1 else t
  let sign : Rat := if t.startsWith "-" then -1 else 1
  match core.splitOn "." with
  | [intPart] =>
    match intPart.toNat? with
    | some n => some (sign * (n : Rat))
    | none => none
  | [intPart, fracPart] =>
    if intPart.isEmpty && fracPart.isEmpty then none
    else
      match (if intPart.isEmpty then some 0 else intPart.toNat?),
            (if fracPart.isEmpty then some 0 else fracPart.toNat?) with
      | some n, some f =>
        some (sign * ((n : Rat) + (f : Rat) / ((10 : Rat) ^ fracPart.length)))
      | _, _ => none
  | _ => none

/-- `float(v)`: identity on floats, exact embedding of ints and bools,
decimal parsing on strings, `TypeError` elsewhere. -/
def pyFloatCoerce : PyVal → Except PyExc Rat
  | .vfloat q => .ok q
  | .vint n => .ok (n : Rat)
  | .vbool b => .ok (if b then 1 else 0)
  | .vstr s =>
    match decToRat s with
    | some q => .ok q
    | none => .error (.valueError "could not convert string to float")
  | _ => .error (.typeError "float argument must be a string or a number")

/-- Render the canonical dashed-lowercase form of a uuid value. -/
def uuidCanonical (n : Nat) : String :=
  let ds := Nat.toDigits 16 n
  let padded := List.replicate (32 - ds.length) '0' ++ ds
  String.mk (padded.take 8) ++ "-" ++ String.mk ((padded.drop 8).take 4) ++ "-" ++
    String.mk ((padded.drop 12).take 4) ++ "-" ++ String.mk ((padded.drop 16).take 4) ++ "-" ++
    String.mk (padded.drop 20)

/-- `str(v)`.  Faithful on the shapes a claim evaluates (strings, ints,
bools, `None`); floats and collections are rendered approximately (Python
float repr and element quoting are not reproduced) and no theorem below
evaluates them. -/
def pyStrOf : PyVal → String
  | .vnone => "None"
  | .vstr s => s
  | .vint n => toString n
  | .vbool b => if b then "True" else "False"
  | .vfloat q => toString q
  | .vuuid n => uuidCanonical n
  | .vlist xs => "[" ++ toString xs.length ++ " items]"
  | .vtuple xs => "(" ++ toString xs.length ++ " items)"
  | .vset xs => "set of " ++ toString xs.length
  | .vmap kvs => "dict of " ++ toString kvs.length

/-- Iteration (`for item in value`): lists, tuples and sets yield their
elements, strings their characters, dicts their keys; other values raise
`TypeError: not iterable`, which no handler in `fields.py` catches. -/
def pyIter : PyVal → Option (List PyVal)
  | .vlist xs => some xs
  | .vtuple xs => some xs
  | .vset xs => some xs
  | .vstr s => some (s.toList.map (fun c => .vstr (String.mk [c])))
  | .vmap kvs => some (kvs.map Prod.fst)
  | _ => none

/-- `BaseField.to_python` catches `TypeError` and `ValueError` from the
type constructor and re-raises a descriptive `TypeError`; anything else
(notably `AttributeError`) escapes unwrapped. -/
def wrapConv (target : String) : Except PyExc PyVal → Except PyExc PyVal
  | .ok v => .ok v
  | .error (.valueError _) => .error (.typeError ("Nao foi possivel converter para " ++ target))
  | .error (.typeError _) => .error (.typeError ("Nao foi possivel converter para " ++ target))
  | .error e => .error e

/-- The per-item loop of `List.to_python` / `Set.to_python`: convert each
element, re-raising an item-level `TypeError` with the collection message
and propagating any other exception. -/
def convItems (conv : PyVal → Except PyExc PyVal) :
    List PyVal → Except PyExc (List PyVal)
  | [] => .ok []
  | x :: xs =>
    match conv x with
    | .ok y =>
      match convItems conv xs with
      | .ok ys => .ok (y :: ys)
      | .error e => .error e
    | .error (.typeError _) =>
      .error (.typeError "Nao foi possivel converter item da colecao")
    | .error e => .error e

/-- Insert into an embedded dict: an existing equal key keeps its position
and receives the new value, otherwise the pair is appended. -/
def dictSet (kvs : List (PyVal × PyVal)) (k v : PyVal) : List (PyVal × PyVal) :=
  match kvs with
  | [] => [(k, v)]
  | kv :: rest =>
    if pyValBEq kv.1 k then (kv.1, v) :: rest else kv :: dictSet rest k v

/-- Deduplicating accumulation of `set()` / `result.add(item)`. -/
def setAdd (xs : List PyVal) (x : PyVal) : List PyVal :=
  if xs.any (fun y => pyValBEq y x) then xs else xs ++ [x]

/-- `to_python` (`toLocal`): the wire-to-local conversion of each field
type, exactly as `fields.py` implements it.  `None` maps to `None` for
scalars and to the empty collection for `List` / `Set` / `Map`.  Note the
`Uuid` case: `uuid.UUID(value)` calls `.replace` on its argument, so any
non-string value — including a `uuid.UUID` instance — raises
`AttributeError`, which `BaseField.to_python` does not catch. -/
def to_python : FieldType → PyVal → Except PyExc PyVal
  | .text, v =>
    match v with
    | .vnone => .ok .vnone
    | .vstr s => .ok (.vstr s)
    | _ => .error (.typeError "Nao foi possivel converter para str")
  | .uuid, v =>
    match v with
    | .vnone => .ok .vnone
    | .vstr s =>
      match pyUuidParse s with
      | some n => .ok (.vuuid n)
      | none => .error (.typeError "Nao foi possivel converter para UUID")
    | _ => .error (.attributeError "object has no attribute replace")
  | .integer, v =>
    match v with
    | .vnone => .ok .vnone
    | _ => wrapConv "int" ((pyIntCoerce v).map .vint)
  | .float, v =>
    match v with
    | .vnone => .ok .vnone
    | _ => wrapConv "float" ((pyFloatCoerce v).map .vfloat)
  | .boolean, v =>
    match v with
    | .vnone => .ok .vnone
    | _ => .ok (.vbool (truthy v))
  | .timestamp, v =>
    match v with
    | .vnone => .ok .vnone
    | _ => .ok (.vstr (pyStrOf v))
  | .list inner, v =>
    match v with
    | .vnone => .ok (.vlist [])
    | _ =>
      match pyIter v with
      | none => .error (.typeError "object is not iterable")
      | some xs => (convItems (to_python inner) xs).map .vlist
  | .set inner, v =>
    match v with
    | .vnone => .ok (.vset [])
    | _ =>
      match pyIter v with
      | none => .error (.typeError "object is not iterable")
      | some xs =>
        (convItems (to_python inner) xs).map (fun ys => .vset (ys.foldl setAdd []))
  | .map key value, v =>
    match v with
    | .vnone => .ok (.vmap [])
    | .vmap kvs =>
      (convItems (fun kv =>
          match kv with
          | .vtuple [k, val] =>
            match to_python key k with
            | .ok k2 =>
              match to_python value val with
              | .ok v2 => .ok (.vtuple [k2, v2])
              | .error (.typeError _) => .error (.typeError "Nao foi possivel converter valor do map")
              | .error e => .error e
            | .error (.typeError _) => .error (.typeError "Nao foi possivel converter chave do map")
            | .error e => .error e
          | _ => .error (.typeError "malformed pair"))
        (kvs.map (fun kv => .vtuple [kv.1, kv.2]))).map
        (fun pairs => .vmap (pairs.foldl (fun acc p =>
          match p with
          | .vtuple [k2, v2] => dictSet acc k2 v2
          | _ => acc) []))
    | _ => .error (.attributeError "object has no attribute items")

/-- `to_cql` (`toWire`): the identity on non-`None` scalars (the source
defers validation to the model layer); collections convert elementwise,
`Set.to_cql` returning a Python *list* of the converted elements, and a
non-iterable raises as in `to_python`. -/
def to_cql : FieldType → PyVal → Except PyExc PyVal
  | .text, v => .ok v
  | .uuid, v => .ok v
  | .integer, v => .ok v
  | .float, v => .ok v
  | .boolean, v => .ok v
  | .timestamp, v => .ok v
  | .list inner, v =>
    match v with
    | .vnone => .ok .vnone
    | _ =>
      match pyIter v with
      | none => .error (.typeError "object is not iterable")
      | some xs => (convItems (to_cql inner) xs).map .vlist
  | .set inner, v =>
    match v with
    | .vnone => .ok .vnone
    | _ =>
      match pyIter v with
      | none => .error (.typeError "object is not iterable")
      | some xs => (convItems (to_cql inner) xs).map .vlist
  | .map key value, v =>
    match v with
    | .vnone => .ok .vnone
    | .vmap kvs =>
      (convItems (fun kv =>
          match kv with
          | .vtuple [k, val] =>
            match to_cql key k with
            | .ok k2 =>
              match to_cql value val with
              | .ok v2 => .ok (.vtuple [k2, v2])
              | .error (.typeError _) => .error (.typeError "Nao foi possivel converter valor do map")
              | .error e => .error e
            | .error (.typeError _) => .error (.typeError "Nao foi possivel converter chave do map")
            | .error e => .error e
          | _ => .error (.typeError "malformed pair"))
        (kvs.map (fun kv => .vtuple [kv.1, kv.2]))).map
        (fun pairs => .vmap (pairs.foldl (fun acc p =>
          match p with
          | .vtuple [k2, v2] => dictSet acc k2 v2
          | _ => acc) []))
    | _ => .error (.attributeError "object has no attribute items")

/-!
## Schema differ (`src/caspyorm/_internal/schema_sync.py`)

The executor round-trips are out of scope; what is embedded is the pure
content: the type-name normalization applied to the rows the system catalog
reports, the live-schema assembly from those rows, the create-table builder
local to this module, and the type-mismatch category that `sync_table`
computes when comparing the declared schema against the live one.
-/

namespace SchemaSync

/-- A schema dictionary as `schema_sync.py` builds and compares it: the
four keys `fields` / `primary_keys` / `partition_keys` / `clustering_keys`
(no table name — `sync_table` passes the table name separately). -/
structure DbSchema where
  fields : List (String × String)
  primary_keys : List String
  partition_keys : List String
  clustering_keys : List String
  deriving DecidableEq, Repr

/-- The CQL-to-comparison type table inside `get_cassandra_table_schema`. -/
def live_type_mapping : List (String × String) :=
  [("text", "text"), ("varchar", "text"), ("int", "int"), ("bigint", "int"),
   ("float", "float"), ("double", "float"), ("boolean", "boolean"),
   ("uuid", "uuid"), ("timestamp", "timestamp"), ("date", "date"),
   ("time", "time"), ("blob", "blob"), ("decimal", "decimal"),
   ("varint", "int"), ("inet", "inet"), ("list", "list"), ("set", "set"),
   ("map", "map"), ("tuple", "tuple"), ("frozen", "frozen"),
   ("counter", "counter"), ("duration", "duration"), ("smallint", "int"),
   ("tinyint", "int"), ("timeuuid", "uuid"), ("ascii", "text"),
   ("json", "text")]

/-- The normalization `get_cassandra_table_schema` applies to a
driver-reported column type before storing it for comparison: truncate at
the first `<` and the first `(`, lowercase, then map synonyms through the
table (unknown base types pass through). -/
def normalize_live_type (column_type : String) : String :=
  let base_type := pyLower (pySplitHead "(" (pySplitHead "<" column_type).1).1
  (live_type_mapping.lookup base_type).getD base_type

/-- The pure core of `get_cassandra_table_schema`: from the
`system_schema.columns` rows `(column_name, type, kind)` of one table, in
catalog order, build the live schema dictionary; an empty result means the
table does not exist. -/
def get_cassandra_table_schema (rows : List (String × String × String)) :
    Option DbSchema :=
  if rows.isEmpty then none
  else some (rows.foldl (fun sch row =>
    let column_name := row.1
    let mapped_type := normalize_live_type row.2.1
    let column_kind := row.2.2
    let sch1 := { sch with fields := sch.fields ++ [(column_name, mapped_type)] }
    if column_kind == "partition_key" then
      { sch1 with
          partition_keys := sch1.partition_keys ++ [column_name],
          primary_keys := sch1.primary_keys ++ [column_name] }
    else if column_kind == "clustering" then
      { sch1 with
          clustering_keys := sch1.clustering_keys ++ [column_name],
          primary_keys := sch1.primary_keys ++ [column_name] }
    else sch1) ⟨[], [], [], []⟩)

/-- `build_create_table_cql` from `schema_sync.py`: whenever both partition
and clustering keys are present the whole partition-key group is wrapped in
its own parentheses; with no clustering keys the partition keys are joined
without inner parentheses; with no partition keys it raises. -/
def build_create_table_cql (table_name : String) (schema : DbSchema) :
    Except PyExc String :=
  let fields := schema.fields.map (fun fi => fi.1 ++ " " ++ fi.2)
  if !schema.partition_keys.isEmpty && !schema.clustering_keys.isEmpty then
    let pk_def :=
      "PRIMARY KEY ((" ++ pyJoin ", " schema.partition_keys ++ ")" ++
        (if !schema.clustering_keys.isEmpty then
          ", " ++ pyJoin ", " schema.clustering_keys ++ ")"
        else ")")
    .ok ("\n    CREATE TABLE IF NOT EXISTS " ++ table_name ++ " (\n        " ++
         pyJoin ", " (fields ++ [pk_def]) ++ "\n    )\n    ")
  else if !schema.partition_keys.isEmpty then
    let pk_def := "PRIMARY KEY (" ++ pyJoin ", " schema.partition_keys ++ ")"
    .ok ("\n    CREATE TABLE IF NOT EXISTS " ++ table_name ++ " (\n        " ++
         pyJoin ", " (fields ++ [pk_def]) ++ "\n    )\n    ")
  else
    .error (.runtimeError "Tabela deve ter pelo menos uma chave primaria")

/-- The `type_mismatches` category `sync_table` computes for fields present
in both schemas: a description per common field whose stored type strings
differ.  Python iterates the unordered set intersection of the field-name
sets; the embedding iterates the declared schema in field order, so only
membership in and emptiness of the result are meaningful. -/
def type_mismatches (model_schema db_schema : DbSchema) : List String :=
  model_schema.fields.foldr (fun mf acc =>
    match db_schema.fields.lookup mf.1 with
    | some db_type =>
      if mf.2 != db_type then (mf.1 ++ ": " ++ db_type ++ " -> " ++ mf.2) :: acc
      else acc
    | none => acc) []

/-- Modelled from the spec: `caspyorm/_internal/model_construction.py`, the
module that builds a model class attribute `__caspy_schema__`, is not under
`src/`.  Per the spec (§3 FieldDescriptor, §4.1 wireTypeName) the type the
declared schema stores for each field is the wire-type name — fixed names
for scalars and `list<inner>` / `set<inner>` / `map<key,value>` for
collections — which is exactly `get_cql_definition` of `fields.py`.  This
builds the declared field/type mapping `sync_table` compares. -/
def caspy_schema_fields (decl : List (String × FieldType)) : List (String × String) :=
  decl.map (fun f => (f.1, get_cql_definition f.2))

end SchemaSync

/-!
## Claims
-/

/-- Unfolding of the `Except` monad bind on a success value. -/
theorem exc_bind_ok {α β : Type} (a : α) (f : α → Except PyExc β) :
    (Except.ok a >>= f) = f a := rfl

/-- Unfolding of the `Except` monad bind on a raised exception. -/
theorem exc_bind_error {α β : Type} (e : PyExc) (f : α → Except PyExc β) :
    ((Except.error e : Except PyExc α) >>= f) = Except.error e := rfl

/-- Appending one filter entry appends exactly its clause and its
parameters (or propagates the first raised exception). -/
theorem build_where_snoc (xs : List (String × PyVal)) (e : String × PyVal) :
    QueryBuilder.build_where (xs ++ [e]) =
      match QueryBuilder.build_where xs,
            QueryBuilder.filter_entry_clause e.1 e.2 with
      | .ok a, .ok c => .ok (a.1 ++ [c.1], a.2 ++ c.2)
      | .error err, _ => .error err
      | .ok _, .error err => .error err := by
  induction xs with
  | nil =>
    obtain ⟨k, v⟩ := e
    simp only [List.nil_append, QueryBuilder.build_where]
    cases QueryBuilder.filter_entry_clause k v <;>
      simp [exc_bind_ok, exc_bind_error]
  | cons hd tl ih =>
    obtain ⟨k, v⟩ := hd
    simp only [List.cons_append, QueryBuilder.build_where, List.append_eq]
    cases hf : QueryBuilder.filter_entry_clause k v with
    | error e1 => simp [exc_bind_error]
    | ok c =>
      simp only [exc_bind_ok]
      rw [ih]
      cases QueryBuilder.build_where tl <;>
        cases QueryBuilder.filter_entry_clause e.1 e.2 <;>
          simp [exc_bind_ok, exc_bind_error]

/-- If some entry of the filter list raises, the whole filter loop raises
(the first exception encountered, which need not be this entry). -/
theorem build_where_error_of_mem (filters : List (String × PyVal))
    (key : String) (v : PyVal) (e0 : PyExc) (hm : (key, v) ∈ filters)
    (he : QueryBuilder.filter_entry_clause key v = .error e0) :
    ∃ e, QueryBuilder.build_where filters = .error e := by
  induction filters with
  | nil => cases hm
  | cons hd tl ih =>
    obtain ⟨k2, v2⟩ := hd
    rcases List.mem_cons.mp hm with heq | hmem
    · cases heq
      refine ⟨e0, ?_⟩
      simp only [QueryBuilder.build_where, he]
      rfl
    · cases hf : QueryBuilder.filter_entry_clause k2 v2 with
      | error e2 =>
        refine ⟨e2, ?_⟩
        simp only [QueryBuilder.build_where, hf]
        rfl
      | ok c =>
        obtain ⟨e1, he1⟩ := ih hmem
        refine ⟨e1, ?_⟩
        simp only [QueryBuilder.build_where, hf, he1]
        rfl

/-- `build_select_cql` with default projection, no limit and no ordering,
on a non-empty filter list: the filter loop decides everything. -/
theorem build_select_cql_filters_only (s : Schema)
    (filters : List (String × PyVal)) (hne : filters.isEmpty = false) :
    QueryBuilder.build_select_cql s [] filters none [] =
      match QueryBuilder.build_where filters with
      | .error e => .error e
      | .ok wp =>
        .ok ("SELECT * FROM " ++ s.table_name ++ " WHERE " ++
             pyJoin " AND " wp.1 ++ " ALLOW FILTERING", wp.2) := by
  simp only [QueryBuilder.build_select_cql, hne]
  cases QueryBuilder.build_where filters <;> simp [Except.bind]

/-- C1 (counterexample): with the partition keys `pk1, pk2` and clustering
key `ck1`, the statement compiler emits `PRIMARY KEY (pk1, pk2, ck1)` with
no inner parentheses around the partition keys — the emitted text contains
no `((` at all; and the schema-sync builder wraps even a single partition
key, emitting `PRIMARY KEY ((id), ts)`. -/
theorem C1_counterexample :
    QueryBuilder.build_create_table_cql
        ⟨"users", [("pk1", "text"), ("pk2", "text"), ("ck1", "int")],
         ["pk1", "pk2", "ck1"], ["pk1", "pk2"], ["ck1"]⟩ =
      .ok "CREATE TABLE IF NOT EXISTS users (pk1 text, pk2 text, ck1 int, PRIMARY KEY (pk1, pk2, ck1))"
    ∧ strContains
        "CREATE TABLE IF NOT EXISTS users (pk1 text, pk2 text, ck1 int, PRIMARY KEY (pk1, pk2, ck1))"
        "((" = false
    ∧ SchemaSync.build_create_table_cql "events"
        ⟨[("id", "uuid"), ("ts", "timestamp")], ["id", "ts"], ["id"], ["ts"]⟩ =
      .ok "\n    CREATE TABLE IF NOT EXISTS events (\n        id uuid, ts timestamp, PRIMARY KEY ((id), ts)\n    )\n    "
    ∧ strContains
        "\n    CREATE TABLE IF NOT EXISTS events (\n        id uuid, ts timestamp, PRIMARY KEY ((id), ts)\n    )\n    "
        "PRIMARY KEY ((id), ts)" = true :=
  ⟨rfl, rfl, rfl, rfl⟩

/-- C1 (amended): `QueryBuilder.build_create_table_cql` always joins the
whole `primary_keys` list inside one pair of parentheses — `PRIMARY KEY
(k1, ..., kn)` — treating the first key as the partition key and never
emitting an inner partition-key group; `SchemaSync.build_create_table_cql`
emits `PRIMARY KEY (p1, ..., pn)` when there are no clustering keys, and
wraps the whole partition-key group in its own parentheses whenever at
least one clustering key exists, even for a single partition key. -/
theorem C1_create_table_pk_clause :
    (∀ (t : String) (fs : List (String × String)) (pk : String)
       (rest pks cks : List String),
       QueryBuilder.build_create_table_cql ⟨t, fs, pk :: rest, pks, cks⟩ =
         .ok ("CREATE TABLE IF NOT EXISTS " ++ t ++ " (" ++
              pyJoin ", " (fs.map (fun fi => fi.1 ++ " " ++ QueryBuilder.get_cql_type fi.2)) ++
              ", " ++ ("PRIMARY KEY (" ++ pyJoin ", " (pk :: rest) ++ ")") ++ ")"))
    ∧ (∀ (t : String) (fs : List (String × String)) (p : String)
         (ps pks : List String),
         SchemaSync.build_create_table_cql t ⟨fs, pks, p :: ps, []⟩ =
           .ok ("\n    CREATE TABLE IF NOT EXISTS " ++ t ++ " (\n        " ++
                pyJoin ", " (fs.map (fun fi => fi.1 ++ " " ++ fi.2) ++
                  ["PRIMARY KEY (" ++ pyJoin ", " (p :: ps) ++ ")"]) ++
                "\n    )\n    "))
    ∧ (∀ (t : String) (fs : List (String × String)) (p c : String)
         (ps cs pks : List String),
         SchemaSync.build_create_table_cql t ⟨fs, pks, p :: ps, c :: cs⟩ =
           .ok ("\n    CREATE TABLE IF NOT EXISTS " ++ t ++ " (\n        " ++
                pyJoin ", " (fs.map (fun fi => fi.1 ++ " " ++ fi.2) ++
                  ["PRIMARY KEY ((" ++ pyJoin ", " (p :: ps) ++ ")" ++
                   (", " ++ pyJoin ", " (c :: cs) ++ ")")]) ++
                "\n    )\n    ")) := by
  refine ⟨fun t fs pk rest pks cks => ?_, fun t fs p ps pks => ?_,
          fun t fs p c ps cs pks => ?_⟩
  · cases rest with
    | nil => rfl
    | cons r rs =>
      simp [QueryBuilder.build_create_table_cql, pyJoin, String.append_assoc]
  · rfl
  · rfl

/-- C2: `build_delete_cql` raises exactly when the filter mapping is empty
or some partition key is missing from the filter keys; on any non-empty
filter covering every partition key it returns the DELETE statement with
one `k = ?` clause per filter entry and the filter values, in mapping
order, as parameters. -/
theorem C2_delete_requires_partition_keys (s : Schema)
    (filters : List (String × PyVal)) :
    ((∃ e, QueryBuilder.build_delete_cql s filters = .error e) ↔
      (filters = [] ∨ ¬ ∀ pk ∈ s.partition_keys, pk ∈ filters.map Prod.fst))
    ∧ (filters ≠ [] →
       (∀ pk ∈ s.partition_keys, pk ∈ filters.map Prod.fst) →
       QueryBuilder.build_delete_cql s filters =
         .ok ("DELETE FROM " ++ s.table_name ++ " WHERE " ++
              pyJoin " AND " (filters.map (fun kv => kv.1 ++ " = ?")),
              filters.map Prod.snd)) := by
  have hcontains : ∀ pk : String,
      (filters.map Prod.fst).contains pk = true ↔ pk ∈ filters.map Prod.fst := by
    intro pk
    simp
  have hall_iff :
      s.partition_keys.all (fun pk => (filters.map Prod.fst).contains pk) = true ↔
        ∀ pk ∈ s.partition_keys, pk ∈ filters.map Prod.fst := by
    rw [List.all_eq_true]
    constructor
    · intro h pk hpk
      exact (hcontains pk).mp (h pk hpk)
    · intro h pk hpk
      exact (hcontains pk).mpr (h pk hpk)
  constructor
  · unfold QueryBuilder.build_delete_cql
    split_ifs with h1 h2
    · rw [List.isEmpty_iff] at h1
      simp [h1]
    · rw [Bool.not_eq_true'] at h2
      constructor
      · intro _
        refine Or.inr (fun hcov => ?_)
        rw [← hall_iff] at hcov
        rw [hcov] at h2
        cases h2
      · intro _
        exact ⟨_, rfl⟩
    · rw [List.isEmpty_iff] at h1
      rw [Bool.not_eq_true'] at h2
      have hall : s.partition_keys.all
          (fun pk => (filters.map Prod.fst).contains pk) = true := by
        cases hb : s.partition_keys.all (fun pk => (filters.map Prod.fst).contains pk) with
        | true => rfl
        | false => exact absurd hb (by simpa using h2)
      constructor
      · rintro ⟨e, he⟩
        cases he
      · rintro (hf | hncov)
        · exact absurd hf h1
        · exact absurd (hall_iff.mp hall) hncov
  · intro hf hcov
    have hfe : filters.isEmpty = false := by
      simpa [List.isEmpty_iff] using hf
    have hall := hall_iff.mpr hcov
    unfold QueryBuilder.build_delete_cql
    rw [hfe, hall]
    simp

/-- C2 (witness): a concrete delete whose filter covers the partition key
`pk` and adds a clustering key succeeds with one clause per entry. -/
theorem C2_witness :
    QueryBuilder.build_delete_cql ⟨"t", [], [], ["pk"], ["ck"]⟩
        [("pk", PyVal.vint 1), ("ck", PyVal.vint 2)] =
      .ok ("DELETE FROM " ++ "t" ++ " WHERE " ++
           pyJoin " AND " ([("pk", PyVal.vint 1), ("ck", PyVal.vint 2)].map
             (fun kv => kv.1 ++ " = ?")),
           [("pk", PyVal.vint 1), ("ck", PyVal.vint 2)].map Prod.snd) :=
  (C2_delete_requires_partition_keys ⟨"t", [], [], ["pk"], ["ck"]⟩
      [("pk", PyVal.vint 1), ("ck", PyVal.vint 2)]).2
    (by simp) (by simp)

/-- C3 (counterexample): with a supplied-but-empty `add` collection and no
`remove`, `build_collection_update_cql` does not raise — it succeeds and
returns a statement whose SET clause is empty (`UPDATE t SET  WHERE id =
?`), contradicting the claim that it fails whenever neither a non-empty
`add` nor a non-empty `remove` is supplied. -/
theorem C3_counterexample :
    QueryBuilder.build_collection_update_cql ⟨"t", [], [], [], []⟩ "tags"
        (some []) none [("id", PyVal.vint 7)] =
      .ok ("UPDATE t SET  WHERE id = ?", [PyVal.vint 7])
    ∧ strContains "UPDATE t SET  WHERE id = ?" "SET  WHERE" = true :=
  ⟨rfl, rfl⟩

/-- C3 (amended): `build_collection_update_cql` raises exactly when both
`add` and `remove` are absent (`None`); when at least one is supplied it
succeeds — a supplied non-empty collection contributes its SET clause with
the whole collection as one parameter, and a supplied empty collection
contributes nothing (so two empty collections give an empty SET
clause). -/
theorem C3_collection_update_error_iff (s : Schema) (fn : String)
    (add remove : Option (List PyVal)) (pkf : List (String × PyVal)) :
    ((∃ e, QueryBuilder.build_collection_update_cql s fn add remove pkf = .error e) ↔
      (add = none ∧ remove = none))
    ∧ (∀ a, add = some a → a ≠ [] → remove = none →
       QueryBuilder.build_collection_update_cql s fn add remove pkf =
         .ok ("UPDATE " ++ s.table_name ++ " SET " ++
              (fn ++ " = " ++ fn ++ " + ?") ++ " WHERE " ++
              pyJoin " AND " (pkf.map (fun kv => kv.1 ++ " = ?")),
              [PyVal.vlist a] ++ pkf.map Prod.snd))
    ∧ (∀ r, add = none → remove = some r → r ≠ [] →
       QueryBuilder.build_collection_update_cql s fn add remove pkf =
         .ok ("UPDATE " ++ s.table_name ++ " SET " ++
              (fn ++ " = " ++ fn ++ " - ?") ++ " WHERE " ++
              pyJoin " AND " (pkf.map (fun kv => kv.1 ++ " = ?")),
              [PyVal.vlist r] ++ pkf.map Prod.snd))
    ∧ (∀ a r, add = some a → remove = some r → a ≠ [] → r ≠ [] →
       QueryBuilder.build_collection_update_cql s fn add remove pkf =
         .ok ("UPDATE " ++ s.table_name ++ " SET " ++
              (fn ++ " = " ++ fn ++ " + ?" ++ ", " ++ fn ++ " = " ++ fn ++ " - ?") ++
              " WHERE " ++
              pyJoin " AND " (pkf.map (fun kv => kv.1 ++ " = ?")),
              [PyVal.vlist a, PyVal.vlist r] ++ pkf.map Prod.snd)) := by
  refine ⟨?_, ?_, ?_, ?_⟩
  · cases add <;> cases remove <;>
      simp [QueryBuilder.build_collection_update_cql]
  · rintro a rfl ha rfl
    obtain ⟨x, xs, rfl⟩ := List.exists_cons_of_ne_nil ha
    simp [QueryBuilder.build_collection_update_cql, pyJoin, String.append_assoc]
  · rintro r rfl rfl hr
    obtain ⟨x, xs, rfl⟩ := List.exists_cons_of_ne_nil hr
    simp [QueryBuilder.build_collection_update_cql, pyJoin, String.append_assoc]
  · rintro a r rfl rfl ha hr
    obtain ⟨x, xs, rfl⟩ := List.exists_cons_of_ne_nil ha
    obtain ⟨y, ys, rfl⟩ := List.exists_cons_of_ne_nil hr
    simp [QueryBuilder.build_collection_update_cql, pyJoin, String.append_assoc]

/-- C3 (witness): the end-to-end collection update of the spec — add two
tags, remove nothing — succeeds with the collection as one parameter. -/
theorem C3_witness :
    QueryBuilder.build_collection_update_cql ⟨"t", [], [], [], []⟩ "tags"
        (some [PyVal.vstr "x", PyVal.vstr "y"]) none [("id", PyVal.vint 7)] =
      .ok ("UPDATE " ++ "t" ++ " SET " ++
           ("tags" ++ " = " ++ "tags" ++ " + ?") ++ " WHERE " ++
           pyJoin " AND " ([("id", PyVal.vint 7)].map (fun kv => kv.1 ++ " = ?")),
           [PyVal.vlist [PyVal.vstr "x", PyVal.vstr "y"]] ++
             [("id", PyVal.vint 7)].map Prod.snd) :=
  (C3_collection_update_error_iff ⟨"t", [], [], [], []⟩ "tags"
      (some [PyVal.vstr "x", PyVal.vstr "y"]) none [("id", PyVal.vint 7)]).2.1
    [PyVal.vstr "x", PyVal.vstr "y"] rfl (by simp) rfl

/-- C7: `build_update_cql` raises exactly when the fields-to-set mapping or
the primary-key filter mapping is empty, for every schema; otherwise it
succeeds and its parameters are all SET values in mapping order followed by
all WHERE values in mapping order. -/
theorem C7_update_requires_data_and_filters (s : Schema)
    (upd pkf : List (String × PyVal)) :
    ((∃ e, QueryBuilder.build_update_cql s upd pkf = .error e) ↔
      (upd = [] ∨ pkf = []))
    ∧ (upd ≠ [] → pkf ≠ [] →
       QueryBuilder.build_update_cql s upd pkf =
         .ok ("UPDATE " ++ s.table_name ++ " SET " ++
              pyJoin ", " (upd.map (fun kv => kv.1 ++ " = ?")) ++ " WHERE " ++
              pyJoin " AND " (pkf.map (fun kv => kv.1 ++ " = ?")),
              upd.map Prod.snd ++ pkf.map Prod.snd)) := by
  constructor
  · by_cases hu : upd = []
    · subst hu
      simp [QueryBuilder.build_update_cql]
    · have hue : upd.isEmpty = false := by simpa [List.isEmpty_iff] using hu
      by_cases hp : pkf = []
      · subst hp
        simp [QueryBuilder.build_update_cql, hue, hu]
      · have hpe : pkf.isEmpty = false := by simpa [List.isEmpty_iff] using hp
        simp [QueryBuilder.build_update_cql, hue, hpe, hu, hp]
  · intro hu hp
    have hue : upd.isEmpty = false := by simpa [List.isEmpty_iff] using hu
    have hpe : pkf.isEmpty = false := by simpa [List.isEmpty_iff] using hp
    simp [QueryBuilder.build_update_cql, hue, hpe]

/-- C7 (witness): a one-field update with a one-key filter succeeds with
the SET value followed by the WHERE value. -/
theorem C7_witness :
    QueryBuilder.build_update_cql ⟨"t", [], [], [], []⟩
        [("a", PyVal.vint 1)] [("id", PyVal.vint 2)] =
      .ok ("UPDATE " ++ "t" ++ " SET " ++
           pyJoin ", " ([("a", PyVal.vint 1)].map (fun kv => kv.1 ++ " = ?")) ++
           " WHERE " ++
           pyJoin " AND " ([("id", PyVal.vint 2)].map (fun kv => kv.1 ++ " = ?")),
           [("a", PyVal.vint 1)].map Prod.snd ++ [("id", PyVal.vint 2)].map Prod.snd) :=
  (C7_update_requires_data_and_filters ⟨"t", [], [], [], []⟩
      [("a", PyVal.vint 1)] [("id", PyVal.vint 2)]).2 (by simp) (by simp)

/-- C4 (code bug): the wire conversion `to_cql` is the identity on every
scalar value, and `toLocal(toWire(x)) = x` holds without raising for Text,
Integer, Float, Boolean and Timestamp values of the correct local type —
but for Uuid it fails: `to_cql` hands the `uuid.UUID` value back unchanged
and `to_python` then calls `uuid.UUID(value)`, whose constructor invokes
`.replace` on its argument, raising `AttributeError` for every non-string
input, so the round trip on a correct Uuid local value raises instead of
returning the value. -/
theorem C4_scalar_roundtrip_uuid_raises :
    (∀ s : String, to_cql .text (.vstr s) = .ok (.vstr s)
      ∧ to_python .text (.vstr s) = .ok (.vstr s))
    ∧ (∀ n : Int, to_cql .integer (.vint n) = .ok (.vint n)
      ∧ to_python .integer (.vint n) = .ok (.vint n))
    ∧ (∀ q : Rat, to_cql .float (.vfloat q) = .ok (.vfloat q)
      ∧ to_python .float (.vfloat q) = .ok (.vfloat q))
    ∧ (∀ b : Bool, to_cql .boolean (.vbool b) = .ok (.vbool b)
      ∧ to_python .boolean (.vbool b) = .ok (.vbool b))
    ∧ (∀ s : String, to_cql .timestamp (.vstr s) = .ok (.vstr s)
      ∧ to_python .timestamp (.vstr s) = .ok (.vstr s))
    ∧ (to_cql .uuid (.vuuid 5) = .ok (.vuuid 5)
      ∧ to_python .uuid (.vuuid 5) =
          .error (.attributeError "object has no attribute replace")) :=
  ⟨fun _ => ⟨rfl, rfl⟩, fun _ => ⟨rfl, rfl⟩, fun _ => ⟨rfl, rfl⟩,
   fun _ => ⟨rfl, rfl⟩, fun _ => ⟨rfl, rfl⟩, rfl, rfl⟩

/-- C8: `to_python` maps a `None` wire value to the empty collection of the
declared kind for every List, Set and Map field — never to `None` — and to
`None` for every scalar field type. -/
theorem C8_none_to_empty_collection :
    (∀ inner : FieldType, to_python (.list inner) .vnone = .ok (.vlist []))
    ∧ (∀ inner : FieldType, to_python (.set inner) .vnone = .ok (.vset []))
    ∧ (∀ k v : FieldType, to_python (.map k v) .vnone = .ok (.vmap []))
    ∧ to_python .text .vnone = .ok .vnone
    ∧ to_python .uuid .vnone = .ok .vnone
    ∧ to_python .integer .vnone = .ok .vnone
    ∧ to_python .float .vnone = .ok .vnone
    ∧ to_python .boolean .vnone = .ok .vnone
    ∧ to_python .timestamp .vnone = .ok .vnone :=
  ⟨fun _ => rfl, fun _ => rfl, fun _ _ => rfl, rfl, rfl, rfl, rfl, rfl, rfl⟩

/-- C9: a scalar type name outside the compiler type table (and containing
no `<`) is silently mapped to `text`: `_get_cql_type` returns `text`, the
ADD-COLUMN statement declares the column as `text`, and a CREATE TABLE
over a field of that type declares it as `text` — no error is raised. -/
theorem C9_unknown_scalar_type_maps_to_text (t table col pk : String)
    (h1 : '<' ∉ t.toList) (h2 : t ∉ QueryBuilder.known_cql_types) :
    QueryBuilder.get_cql_type t = "text"
    ∧ QueryBuilder.build_add_column_cql table col t =
        "ALTER TABLE " ++ table ++ " ADD " ++ col ++ " " ++ "text" ++ ";"
    ∧ QueryBuilder.build_create_table_cql ⟨table, [(col, t)], [pk], [pk], []⟩ =
        .ok ("CREATE TABLE IF NOT EXISTS " ++ table ++ " (" ++
             (col ++ " " ++ "text") ++ ", " ++ ("PRIMARY KEY (" ++ pk ++ ")") ++ ")") := by
  have hc : t.toList.contains '<' = false := by simpa using h1
  have hne : QueryBuilder.get_cql_type t = "text" := by
    simp only [QueryBuilder.known_cql_types, List.mem_cons, List.not_mem_nil,
      or_false, not_or] at h2
    obtain ⟨n1, n2, n3, n4, n5, n6, n7, n8, n9, n10, n11, n12, n13, n14, n15⟩ := h2
    have b1 : (t == "text") = false := beq_eq_false_iff_ne.mpr n1
    have b2 : (t == "uuid") = false := beq_eq_false_iff_ne.mpr n2
    have b3 : (t == "int") = false := beq_eq_false_iff_ne.mpr n3
    have b4 : (t == "bigint") = false := beq_eq_false_iff_ne.mpr n4
    have b5 : (t == "float") = false := beq_eq_false_iff_ne.mpr n5
    have b6 : (t == "double") = false := beq_eq_false_iff_ne.mpr n6
    have b7 : (t == "boolean") = false := beq_eq_false_iff_ne.mpr n7
    have b8 : (t == "timestamp") = false := beq_eq_false_iff_ne.mpr n8
    have b9 : (t == "date") = false := beq_eq_false_iff_ne.mpr n9
    have b10 : (t == "time") = false := beq_eq_false_iff_ne.mpr n10
    have b11 : (t == "blob") = false := beq_eq_false_iff_ne.mpr n11
    have b12 : (t == "decimal") = false := beq_eq_false_iff_ne.mpr n12
    have b13 : (t == "varint") = false := beq_eq_false_iff_ne.mpr n13
    have b14 : (t == "inet") = false := beq_eq_false_iff_ne.mpr n14
    have b15 : (t == "varchar") = false := beq_eq_false_iff_ne.mpr n15
    unfold QueryBuilder.get_cql_type
    rw [hc]
    simp [List.lookup, b1, b2, b3, b4, b5, b6, b7, b8, b9, b10, b11, b12, b13,
      b14, b15]
  refine ⟨hne, ?_, ?_⟩
  · unfold QueryBuilder.build_add_column_cql
    rw [hne]
  · unfold QueryBuilder.build_create_table_cql
    simp [hne, pyJoin]

/-- C9 (witness): the unknown scalar type name `json` (absent from the
statement compiler table, although the schema differ knows it) silently
becomes `text` in both DDL statements. -/
theorem C9_witness :
    QueryBuilder.get_cql_type "json" = "text"
    ∧ QueryBuilder.build_add_column_cql "t" "c" "json" =
        "ALTER TABLE " ++ "t" ++ " ADD " ++ "c" ++ " " ++ "text" ++ ";"
    ∧ QueryBuilder.build_create_table_cql ⟨"t", [("c", "json")], ["id"], ["id"], []⟩ =
        .ok ("CREATE TABLE IF NOT EXISTS " ++ "t" ++ " (" ++
             ("c" ++ " " ++ "text") ++ ", " ++ ("PRIMARY KEY (" ++ "id" ++ ")") ++ ")") :=
  C9_unknown_scalar_type_maps_to_text "json" "t" "c" "id" (by decide) (by decide)

/-- C5 (counterexample): a declared `list<text>` field whose live column
reports the *identical* type string `list<text>` still registers a type
mismatch, because the live-side normalization truncates the type at `<`
(storing `list`) while the declared schema stores the full `list<text>`:
the diff reports `tags: list -> list<text>` instead of the empty
category. -/
theorem C5_counterexample :
    SchemaSync.get_cassandra_table_schema
        [("id", "uuid", "partition_key"), ("tags", "list<text>", "regular")] =
      some ⟨[("id", "uuid"), ("tags", "list")], ["id"], ["id"], []⟩
    ∧ SchemaSync.type_mismatches
        ⟨SchemaSync.caspy_schema_fields [("id", .uuid), ("tags", .list .text)],
         ["id"], ["id"], []⟩
        ⟨[("id", "uuid"), ("tags", "list")], ["id"], ["id"], []⟩ =
      ["tags: list -> list<text>"] :=
  ⟨rfl, rfl⟩

/-- C5 (amended): the live-side normalization collapses every scalar
synonym of the driver (`varchar`/`ascii`/`json` to `text`,
`varint`/`smallint`/`tinyint`/`bigint` to `int`, `timeuuid` to `uuid`,
`double` to `float`), so scalar fields whose stored types agree produce an
empty `type_mismatch` category; but a collection type is truncated to its
bare kind (`list<text>` to `list`, `set<int>` to `set`, `map<text, int>`
to `map`), which can never equal the full composed type the declared
schema stores, so semantically equal collection fields register a false
mismatch. -/
theorem C5_type_normalization :
    (SchemaSync.normalize_live_type "varchar" = "text"
     ∧ SchemaSync.normalize_live_type "ascii" = "text"
     ∧ SchemaSync.normalize_live_type "json" = "text"
     ∧ SchemaSync.normalize_live_type "varint" = "int"
     ∧ SchemaSync.normalize_live_type "smallint" = "int"
     ∧ SchemaSync.normalize_live_type "tinyint" = "int"
     ∧ SchemaSync.normalize_live_type "bigint" = "int"
     ∧ SchemaSync.normalize_live_type "timeuuid" = "uuid"
     ∧ SchemaSync.normalize_live_type "double" = "float")
    ∧ (SchemaSync.normalize_live_type "list<text>" = "list"
     ∧ SchemaSync.normalize_live_type "set<int>" = "set"
     ∧ SchemaSync.normalize_live_type "map<text, int>" = "map")
    ∧ (∀ model db : SchemaSync.DbSchema,
        (∀ p ∈ model.fields,
          db.fields.lookup p.1 = none ∨ db.fields.lookup p.1 = some p.2) →
        SchemaSync.type_mismatches model db = []) := by
  refine ⟨⟨rfl, rfl, rfl, rfl, rfl, rfl, rfl, rfl, rfl⟩, ⟨rfl, rfl, rfl⟩, ?_⟩
  rintro ⟨mf, mp1, mp2, mp3⟩ db h
  simp only [SchemaSync.type_mismatches] at *
  induction mf with
  | nil => rfl
  | cons hd tl ih =>
    have hhd := h hd (by simp)
    have htl : ∀ p ∈ tl,
        db.fields.lookup p.1 = none ∨ db.fields.lookup p.1 = some p.2 :=
      fun p hp => h p (by simp [hp])
    rcases hhd with hl | hl
    · simpa [List.foldr_cons, hl] using ih htl
    · simpa [List.foldr_cons, hl] using ih htl

/-- C5 (witness): a declared schema whose scalar types agree with the
normalized live types yields no mismatch. -/
theorem C5_witness :
    SchemaSync.type_mismatches
        ⟨[("name", "text"), ("age", "int")], [], [], []⟩
        ⟨[("name", "text"), ("age", "int"), ("extra", "float")], [], [], []⟩ = [] :=
  C5_type_normalization.2.2
    ⟨[("name", "text"), ("age", "int")], [], [], []⟩
    ⟨[("name", "text"), ("age", "int"), ("extra", "float")], [], [], []⟩
    (by decide)

/-- C10: two filter keys agreeing on their first two `__`-separated
segments are processed identically by `build_select_cql` and
`build_count_cql` — every segment after the second is silently ignored —
and the second segment is the operator token validated against the
supported set after the split: an unsupported second segment raises the
unsupported-operator error naming it, regardless of the extra
segments. -/
theorem C10_extra_segments_ignored (s : Schema) (key key2 fname op r r2 : String)
    (o o2 : Option String) (v : PyVal)
    (hk : pySplitHead "__" key = (fname, some r))
    (hko : pySplitHead "__" r = (op, o))
    (hk2 : pySplitHead "__" key2 = (fname, some r2))
    (hk2o : pySplitHead "__" r2 = (op, o2)) :
    QueryBuilder.build_select_cql s [] [(key, v)] none [] =
      QueryBuilder.build_select_cql s [] [(key2, v)] none []
    ∧ QueryBuilder.build_count_cql s [(key, v)] =
      QueryBuilder.build_count_cql s [(key2, v)]
    ∧ (QueryBuilder.operator_map.lookup op = none →
       QueryBuilder.build_select_cql s [] [(key, v)] none [] =
         .error (.valueError ("Operador de filtro nao suportado: " ++ op)))
    ∧ (∀ copStr : String, QueryBuilder.operator_map.lookup op = some copStr →
       copStr ≠ "IN" →
       QueryBuilder.build_select_cql s [] [(key, v)] none [] =
         .ok ("SELECT * FROM " ++ s.table_name ++ " WHERE " ++
              (fname ++ " " ++ copStr ++ " ?") ++ " ALLOW FILTERING", [v])) := by
  have hfec : QueryBuilder.filter_entry_clause key v =
      QueryBuilder.filter_entry_clause key2 v := by
    simp only [QueryBuilder.filter_entry_clause, hk, hko, hk2, hk2o]
  have hbw : QueryBuilder.build_where [(key, v)] =
      QueryBuilder.build_where [(key2, v)] := by
    simp [QueryBuilder.build_where, hfec]
  refine ⟨?_, ?_, ?_, ?_⟩
  · simp only [QueryBuilder.build_select_cql, hbw]
    simp
  · simp only [QueryBuilder.build_count_cql, hbw]
    simp
  · intro hl
    have hfe : QueryBuilder.filter_entry_clause key v =
        .error (.valueError ("Operador de filtro nao suportado: " ++ op)) := by
      simp only [QueryBuilder.filter_entry_clause, hk, hko, hl]
    simp [QueryBuilder.build_select_cql, QueryBuilder.build_where, hfe,
      Except.bind]
    rfl
  · intro copStr hl hne
    have hfe : QueryBuilder.filter_entry_clause key v =
        .ok (fname ++ " " ++ copStr ++ " ?", [v]) := by
      simp only [QueryBuilder.filter_entry_clause, hk, hko, hl]
      rw [if_neg hne]
    have hbw1 : QueryBuilder.build_where [(key, v)] =
        .ok ([fname ++ " " ++ copStr ++ " ?"], [v]) := by
      simp only [QueryBuilder.build_where, hfe]
      simp [exc_bind_ok]
    rw [build_select_cql_filters_only s [(key, v)] rfl, hbw1]
    simp [pyJoin]

/-- C10 (witness): `a__bogus__c` and `a__bogus` are handled identically,
and the unsupported operator token `bogus` — the second segment, with the
third segment `c` ignored — is rejected by name. -/
theorem C10_witness :
    QueryBuilder.build_select_cql ⟨"t", [], [], [], []⟩ []
        [("a__bogus__c", PyVal.vint 1)] none [] =
      QueryBuilder.build_select_cql ⟨"t", [], [], [], []⟩ []
        [("a__bogus", PyVal.vint 1)] none []
    ∧ QueryBuilder.build_select_cql ⟨"t", [], [], [], []⟩ []
        [("a__bogus__c", PyVal.vint 1)] none [] =
        .error (.valueError ("Operador de filtro nao suportado: " ++ "bogus"))
    ∧ QueryBuilder.build_select_cql ⟨"t", [], [], [], []⟩ []
        [("age__gt__junk", PyVal.vint 30)] none [] =
        .ok ("SELECT * FROM " ++ "t" ++ " WHERE " ++
             ("age" ++ " " ++ ">" ++ " ?") ++ " ALLOW FILTERING",
             [PyVal.vint 30]) := by
  have h := C10_extra_segments_ignored ⟨"t", [], [], [], []⟩
    "a__bogus__c" "a__bogus" "a" "bogus" "bogus__c" "bogus" (some "c") none
    (PyVal.vint 1) rfl rfl rfl rfl
  have h2 := C10_extra_segments_ignored ⟨"t", [], [], [], []⟩
    "age__gt__junk" "age__gt" "age" "gt" "gt__junk" "gt" (some "junk") none
    (PyVal.vint 30) rfl rfl rfl rfl
  exact ⟨h.1, h.2.2.1 rfl, h2.2.2.2 ">" rfl (by decide)⟩

/-- C6: for a filter entry whose key carries the `in` operator and whose
value is a list, tuple or set of `n` elements, the compiled SELECT
statement holds that entry as `fname IN (?, ..., ?)` with exactly `n`
placeholders and the parameter list grows by exactly those `n` elements,
appended individually after the parameters of the earlier entries; a
non-collection value for `in` raises a type error. -/
theorem C6_in_operator_expansion :
    (∀ (s : Schema) (pre : List (String × PyVal)) (key fname r : String)
       (elems : List PyVal) (v : PyVal) (cql : String) (params : List PyVal)
       (cs : List String) (ps : List PyVal),
       pySplitHead "__" key = (fname, some r) →
       (pySplitHead "__" r).1 = "in" →
       QueryBuilder.collElems v = some elems →
       QueryBuilder.build_where pre = .ok (cs, ps) →
       QueryBuilder.build_select_cql s [] (pre ++ [(key, v)]) none [] =
         .ok (cql, params) →
       params = ps ++ elems
       ∧ cql = "SELECT * FROM " ++ s.table_name ++ " WHERE " ++
           pyJoin " AND " (cs ++
             [fname ++ " IN (" ++
              pyJoin ", " (List.replicate elems.length "?") ++ ")"]) ++
           " ALLOW FILTERING")
    ∧ (∀ (s : Schema) (filters : List (String × PyVal))
         (key fname r : String) (v : PyVal),
       pySplitHead "__" key = (fname, some r) →
       (pySplitHead "__" r).1 = "in" →
       QueryBuilder.collElems v = none →
       (key, v) ∈ filters →
       ∃ e, QueryBuilder.build_select_cql s [] filters none [] = .error e)
    ∧ (∀ (s : Schema) (key fname r : String) (v : PyVal),
       pySplitHead "__" key = (fname, some r) →
       (pySplitHead "__" r).1 = "in" →
       QueryBuilder.collElems v = none →
       QueryBuilder.build_select_cql s [] [(key, v)] none [] =
         .error (.typeError "O valor para o filtro __in deve ser uma lista, tupla ou set")) := by
  have hfecIn : ∀ (key fname r : String) (elems : List PyVal) (v : PyVal),
      pySplitHead "__" key = (fname, some r) →
      (pySplitHead "__" r).1 = "in" →
      QueryBuilder.collElems v = some elems →
      QueryBuilder.filter_entry_clause key v =
        .ok (fname ++ " IN (" ++
             pyJoin ", " (List.replicate elems.length "?") ++ ")", elems) := by
    intro key fname r elems v hk hop hcoll
    simp only [QueryBuilder.filter_entry_clause, hk, hop, hcoll]
    rfl
  have hfecBad : ∀ (key fname r : String) (v : PyVal),
      pySplitHead "__" key = (fname, some r) →
      (pySplitHead "__" r).1 = "in" →
      QueryBuilder.collElems v = none →
      QueryBuilder.filter_entry_clause key v =
        .error (.typeError "O valor para o filtro __in deve ser uma lista, tupla ou set") := by
    intro key fname r v hk hop hcoll
    simp only [QueryBuilder.filter_entry_clause, hk, hop, hcoll]
    rfl
  refine ⟨?_, ?_, ?_⟩
  · intro s pre key fname r elems v cql params cs ps hk hop hcoll hpre h
    rw [build_select_cql_filters_only s (pre ++ [(key, v)]) (by simp)] at h
    rw [build_where_snoc] at h
    rw [hpre, hfecIn key fname r elems v hk hop hcoll] at h
    simp only [Except.ok.injEq, Prod.mk.injEq] at h
    exact ⟨h.2.symm, h.1.symm⟩
  · intro s filters key fname r v hk hop hcoll hm
    obtain ⟨e, he⟩ :=
      build_where_error_of_mem filters key v _ hm
        (hfecBad key fname r v hk hop hcoll)
    have hne : filters.isEmpty = false := by
      cases filters with
      | nil => cases hm
      | cons a l => rfl
    refine ⟨e, ?_⟩
    rw [build_select_cql_filters_only s filters hne, he]
  · intro s key fname r v hk hop hcoll
    have hw : QueryBuilder.build_where [(key, v)] =
        .error (.typeError "O valor para o filtro __in deve ser uma lista, tupla ou set") := by
      simp only [QueryBuilder.build_where, hfecBad key fname r v hk hop hcoll]
      rfl
    rw [build_select_cql_filters_only s [(key, v)] rfl, hw]

/-- C6 (witness): the filter `{status: "active", id__in: [1, 2]}` compiles
to two placeholders inside `IN (...)` and grows the parameter list by the
two elements individually; the scalar value `3` for `id__in` raises a type
error. -/
theorem C6_witness :
    (([PyVal.vstr "active", PyVal.vint 1, PyVal.vint 2] : List PyVal) =
        [PyVal.vstr "active"] ++ [PyVal.vint 1, PyVal.vint 2]
     ∧ "SELECT * FROM t WHERE status = ? AND id IN (?, ?) ALLOW FILTERING" =
         "SELECT * FROM " ++ "t" ++ " WHERE " ++
           pyJoin " AND " (["status = ?"] ++
             ["id" ++ " IN (" ++
              pyJoin ", " (List.replicate
                ([PyVal.vint 1, PyVal.vint 2] : List PyVal).length "?") ++ ")"]) ++
           " ALLOW FILTERING")
    ∧ QueryBuilder.build_select_cql ⟨"t", [], [], [], []⟩ []
        [("id__in", PyVal.vint 3)] none [] =
        .error (.typeError "O valor para o filtro __in deve ser uma lista, tupla ou set") :=
  ⟨C6_in_operator_expansion.1 ⟨"t", [], [], [], []⟩
      [("status", PyVal.vstr "active")] "id__in" "id" "in"
      [PyVal.vint 1, PyVal.vint 2] (PyVal.vlist [PyVal.vint 1, PyVal.vint 2])
      "SELECT * FROM t WHERE status = ? AND id IN (?, ?) ALLOW FILTERING"
      [PyVal.vstr "active", PyVal.vint 1, PyVal.vint 2]
      ["status = ?"] [PyVal.vstr "active"]
      rfl rfl rfl rfl rfl,
   C6_in_operator_expansion.2.2 ⟨"t", [], [], [], []⟩ "id__in" "id" "in"
      (PyVal.vint 3) rfl rfl rfl⟩
